import Mathlib

/-!
Verification of the tr1d1um device-connection hub.

Shallow embedding of `vendor/github.com/Comcast/webpa-common/device/manager.go`
(the device manager: `Connect`, `Disconnect`, `Route`, read pump, write pump,
teardown) and of the retry transactor in the vendored `xhttp` package
(`RetryTransactor`, `DefaultShouldRetry`).

Conventions of the embedding:
* Go errors are modelled as `String` values (their text is immaterial) except in
  the xhttp retry code, where the `Temporary() bool` capability of an error
  matters and errors are a structure `GoError`.
* Go channels that deliver a finite stream of items (inbound frames, wake-up
  sources of the write pump, queued envelopes) are modelled as `List`s
  consumed in order; an exhausted list means the pump is still blocked.
* `sync.Once` is modelled as an atomic claim flag: the first `Do` runs the
  action and sets the flag, every later `Do` is a no-op.  A set of concurrent
  invocations of `Do` is modelled by quantifying over every sequential order
  of the atomic claim operation.
* Metrics increments and log statements have no observable effect in the
  embedding and are dropped.
-/

namespace Device

/-- Frame-type constant `websocket.BinaryMessage = 2` of gorilla/websocket. -/
def BinaryMessage : Nat := 2

/-- WRP serialization formats relevant to the manager (`wrp.Msgpack` is the
wire format; any other format forces re-encoding on the write path). -/
inductive Format where
  | Msgpack
  | JSON
  deriving DecidableEq, Repr

/-- A decoded WRP message (`wrp.Message`).  Only the fields the manager code
reads are modelled; the transaction-part classification and the transaction
key derivation live in the vendored `wrp` package and are taken as function
parameters of the pumps. -/
structure Message where
  msgType : Nat
  source : String
  destination : String
  transactionUUID : String
  payload : List Nat
  deriving DecidableEq, Repr

/-- The types of events dispatched to listeners (`device.EventType`). -/
inductive EventType where
  | Connect
  | Disconnect
  | MessageReceived
  | MessageSent
  | MessageFailed
  | TransactionComplete
  | TransactionBroken
  deriving DecidableEq, Repr

/-- A dispatched event (`device.Event`).  The `Device` back-reference is
omitted: every pump run in the embedding concerns a single device. -/
structure Event where
  type : EventType
  message : Option Message
  format : Option Format
  contents : List Nat
  error : Option String
  deriving DecidableEq, Repr

/-- An outbound request (`device.Request`): decoded message, claimed format,
and optionally the caller-supplied raw bytes (`Contents`). -/
structure Request where
  message : Message
  format : Format
  contents : List Nat
  deriving DecidableEq, Repr

/-- A queued outbound envelope (`device.envelope`).  The `complete` channel is
modelled by the completion outcome recorded in the pump run. -/
structure Envelope where
  request : Request
  deriving DecidableEq, Repr

/-- Error returned by `Connect` when the request context carries no device
identity (`device.ErrorMissingDeviceNameContext`; text immaterial). -/
def ErrorMissingDeviceNameContext : String := "missing device name in request context"

/-- Error returned by `Route` when no device is registered under the resolved
identifier (`device.ErrorDeviceNotFound`; text immaterial). -/
def ErrorDeviceNotFound : String := "device not found"

/-- Registry error for an insertion past the configured limit (text
immaterial). -/
def ErrorDeviceLimitReached : String := "device limit reached"

/-- Registry error for an insertion under an already-present identifier (text
immaterial). -/
def ErrorDuplicateDevice : String := "duplicate device identifier"

end Device

namespace Xhttp

/-- A Go error as seen by the retry transactor: `temporary = some b` means the
error implements the `temporaryError` interface (`Temporary() bool`) and that
method returns `b`; `none` means the interface assertion fails. -/
structure GoError where
  msg : String
  temporary : Option Bool
  deriving DecidableEq, Repr

/-- Predicate `xhttp.DefaultShouldRetry`: true iff the error exposes `Temporary() bool`
and that method returns true. -/
def DefaultShouldRetry (err : GoError) : Bool :=
  match err.temporary with
  | some b => b
  | none => false

/-- Outcome of one call to the wrapped transactor `next`: the response (if
any) and the error (if any), mirroring Go's `(*http.Response, error)`. -/
structure GoResult where
  resp : Option Nat
  err : Option GoError
  deriving DecidableEq, Repr

/-- The retry loop of `xhttp.RetryTransactor` (`for i := 0; i < attempts; i++`).
`next k` is the outcome of the `k`-th call of the wrapped function (calls are
numbered from 0), `i` is the loop index and `fuel` the number of remaining
iterations (`attempts - i`).  Returns the number of calls made together with
the final `(response, err)` pair.  After a failed attempt the loop `continue`s
only when the classification predicate `sr` accepts the error; otherwise it
`break`s, and it also stops when the iteration budget is exhausted. -/
def retryGo (sr : GoError → Bool) (next : Nat → GoResult) : Nat → Nat → Nat × GoResult
  | i, 0 => (0, next i)
  | i, fuel + 1 =>
    let r := next i
    match r.err with
    | none => (1, r)
    | some e =>
      if sr e then
        match fuel with
        | 0 => (1, r)
        | f + 1 =>
          let rest := retryGo sr next (i + 1) (f + 1)
          (rest.1 + 1, rest.2)
      else (1, r)

/-- Model of `xhttp.RetryTransactor`: when `retries < 1` the wrapped function is
returned undecorated (the call makes exactly one attempt and returns its
result); otherwise the decorated function runs the retry loop with
`attempts = retries + 1` iterations, using `DefaultShouldRetry` when no
predicate is configured.  `retries : Int` mirrors Go's signed `Retries int`. -/
def RetryTransactor (retries : Int) (shouldRetry : Option (GoError → Bool))
    (next : Nat → GoResult) : Nat × GoResult :=
  if retries < 1 then (1, next 0)
  else retryGo (shouldRetry.getD DefaultShouldRetry) next 0 (retries + 1).toNat

end Xhttp

namespace Device

/-! ## Teardown (`manager.pumpClose` behind a shared `sync.Once`)

`pumpClose` logs the pump error, removes the device from the registry
(`m.devices.remove(d.id)`), closes the transport, and dispatches
`Event{Type: Disconnect, Device: d}`.  Note that the dispatched event sets
neither `Error` nor any message field: the pump error is only logged.
Both pumps and the explicit-`Disconnect` path (which signals the write pump
through `requestClose`) funnel into the same `closeOnce.Do`. -/

/-- The event dispatched by `manager.pumpClose` (manager.go:225-230).  The
`pumpError` argument is only logged by the source; the event's `Error` field
is left unset. -/
def pumpCloseEvent (pumpError : Option String) : Event :=
  { type := EventType.Disconnect
    message := none
    format := none
    contents := []
    error := none }

/-- Registry lookup, an association-list read of the concurrent map. -/
def registryGet {α : Type} (reg : List (String × α)) (id : String) : Option α :=
  (reg.find? (fun p => p.1 = id)).map (fun p => p.2)

/-- Observable state shared by the teardown triggers of one device: the
`sync.Once` claim flag, the registry (device identifiers), the number of
transport `Close` calls, and the events dispatched so far. -/
structure HubState where
  onceDone : Bool
  registry : List String
  closeCount : Nat
  events : List Event
  deriving DecidableEq, Repr

/-- One execution of `manager.pumpClose` for device `id`: registry removal,
transport close, disconnect event. -/
def pumpCloseRun (id : String) (pumpError : Option String) (st : HubState) : HubState :=
  { st with
    registry := st.registry.erase id
    closeCount := st.closeCount + 1
    events := st.events ++ [pumpCloseEvent pumpError] }

/-- Model of `closeOnce.Do`: the first caller claims the flag and runs the action;
every later caller observes the flag set and skips. -/
def onceGuard (f : HubState → HubState) (st : HubState) : HubState :=
  if st.onceDone then st else f { st with onceDone := true }

/-- A sequential order of the atomic `closeOnce.Do` invocations issued by the
teardown triggers (read-pump exit, write-pump exit, explicit `Disconnect`
via the shutdown signal), each carrying its pump error.  Any concurrent
execution is one such order, because `sync.Once` makes each `Do` atomic. -/
def runTeardownTriggers (id : String) : List (Option String) → HubState → HubState
  | [], st => st
  | e :: rest, st => runTeardownTriggers id rest (onceGuard (pumpCloseRun id e) st)

/-! ## Read pump (`manager.readPump`) -/

/-- One result of `ReadCloser.ReadMessage`: a frame `(messageType, data)` or a
read error. -/
inductive ReadResult where
  | frame (messageType : Nat) (data : List Nat)
  | failure (e : String)
  deriving DecidableEq, Repr

/-- Modelled from the spec: the per-device transaction tracker (the
`device.Transactions` type lives outside the vendored sources).  Open
transactions are the correlation keys with a waiting caller; `Complete`
honors at most one completion per key — completing an absent (never opened
or already completed) key is the "transaction broken" error. -/
def transactionsComplete (ts : List String) (key : String) :
    List String × Option String :=
  if key ∈ ts then (ts.erase key, none)
  else (ts, some "transaction does not exist")

/-- Result of a read-pump run: the events dispatched in order, the final
transaction-tracker state, and — when the pump terminated — the read error
that stopped it.  (`manager.go:249` re-declares `readError` with `:=` inside
the loop, so the `readError` captured by the deferred `pumpClose` closure is
the outer variable and is always nil; the error returned here is the
loop-local one that caused the exit.) -/
structure ReadPumpRun where
  events : List Event
  transactions : List String
  terminated : Option String
  deriving DecidableEq, Repr

/-- Model of `manager.readPump` over a finite prefix of the inbound stream.  `decode`
is the Msgpack WRP decoder, `itp` is `wrp.Message.IsTransactionPart` and
`tkey` is `wrp.Message.TransactionKey` (all external to the manager).
A read error returns from the loop; a non-binary frame or an undecodable
binary frame is skipped with `continue`; a decoded message yields exactly one
dispatched event, whose type is `MessageReceived`, or — for transaction
parts — `TransactionComplete` or `TransactionBroken` according to the
outcome of `transactions.Complete`. -/
def readPump (decode : List Nat → Except String Message) (itp : Message → Bool)
    (tkey : Message → String) :
    List ReadResult → List String → ReadPumpRun
  | [], ts => ⟨[], ts, none⟩
  | ReadResult.failure e :: _, ts => ⟨[], ts, some e⟩
  | ReadResult.frame mt data :: rest, ts =>
    if mt = BinaryMessage then
      match decode data with
      | Except.error _ => readPump decode itp tkey rest ts
      | Except.ok msg =>
        if itp msg then
          let c := transactionsComplete ts (tkey msg)
          let ev : Event :=
            match c.2 with
            | some err =>
              { type := EventType.TransactionBroken, message := some msg
                format := some Format.Msgpack, contents := data, error := some err }
            | none =>
              { type := EventType.TransactionComplete, message := some msg
                format := some Format.Msgpack, contents := data, error := none }
          let r := readPump decode itp tkey rest c.1
          ⟨ev :: r.events, r.transactions, r.terminated⟩
        else
          let r := readPump decode itp tkey rest ts
          ⟨{ type := EventType.MessageReceived, message := some msg
             format := some Format.Msgpack, contents := data, error := none } :: r.events,
           r.transactions, r.terminated⟩
    else readPump decode itp tkey rest ts

/-! ## Write pump (`manager.writePump`) -/

/-- Selection of `frameContents` in the write pump's envelope case
(manager.go:385-394): if the request claims the wire format (`wrp.Msgpack`)
and the caller supplied non-empty `Contents`, those cached bytes are used
directly; otherwise the message is re-encoded with the Msgpack `encoder`. -/
def frameContentsFor (encode : Message → Except String (List Nat)) (env : Envelope) :
    Except String (List Nat) :=
  if env.request.format = Format.Msgpack ∧ 0 < env.request.contents.length then
    Except.ok env.request.contents
  else
    encode env.request.message

/-- Outcome of servicing one dequeued envelope: the bytes chosen for the
frame (or the encode error), the resulting `writeError`, the value delivered
on the envelope's `complete` channel (`some e` when the failure is sent
before the channel is closed, `none` when the channel is merely closed on
success), and the dispatched event. -/
structure EnvelopeOutcome where
  framePath : Except String (List Nat)
  writeError : Option String
  completion : Option String
  event : Event
  deriving Repr

/-- The envelope case of the write pump's select (manager.go:384-416):
pick the frame bytes, write them (`writeError` is the encode error or the
result of `WriteMessage`), notify the caller on failure, and dispatch
`MessageSent` on success or `MessageFailed` (carrying the error) on failure.
The event's `Contents` field is the caller's original `request.Contents`,
not the frame bytes. -/
def processEnvelope (encode : Message → Except String (List Nat))
    (write : List Nat → Option String) (env : Envelope) : EnvelopeOutcome :=
  let fc := frameContentsFor encode env
  let we : Option String :=
    match fc with
    | Except.error e => some e
    | Except.ok bytes => write bytes
  { framePath := fc
    writeError := we
    completion := we
    event :=
      { type := if we.isSome then EventType.MessageFailed else EventType.MessageSent
        message := some env.request.message
        format := some env.request.format
        contents := env.request.contents
        error := we } }

/-- One wake-up of the write pump's select: the shutdown signal (carrying the
result of the graceful `w.Close()`), a dequeued envelope, or a ping tick
(carrying the result of `pinger()`). -/
inductive WakeUp where
  | shutdown (closeResult : Option String)
  | envelope (env : Envelope)
  | ping (pingResult : Option String)
  deriving Repr

/-- State of the write pump when its `for writeError == nil` loop exits: the
events dispatched inside the loop, the per-envelope completion-channel
outcomes in order, the final `writeError`, and the `envelope` local variable
(non-nil exactly when the loop exited in the middle of servicing an
envelope). -/
structure WritePumpRun where
  loopEvents : List Event
  completions : List (Option String)
  writeError : Option String
  inflight : Option Envelope
  deriving Repr

/-- The write pump's main loop (manager.go:375-422) over a finite prefix of
its wake-up stream.  `envelope` is reset to nil at the top of each iteration;
the loop runs while `writeError == nil`, so a failed envelope write or a
failed ping ends consumption, and an explicit shutdown returns directly. -/
def writePumpLoop (encode : Message → Except String (List Nat))
    (write : List Nat → Option String) : List WakeUp → WritePumpRun
  | [] => ⟨[], [], none, none⟩
  | WakeUp.shutdown cr :: _ => ⟨[], [], cr, none⟩
  | WakeUp.ping pr :: rest =>
    match pr with
    | none => writePumpLoop encode write rest
    | some e => ⟨[], [], some e, none⟩
  | WakeUp.envelope env :: rest =>
    let o := processEnvelope encode write env
    match o.writeError with
    | none =>
      let r := writePumpLoop encode write rest
      ⟨o.event :: r.loopEvents, o.completion :: r.completions, r.writeError, r.inflight⟩
    | some e => ⟨[o.event], [o.completion], some e, some env⟩

/-- A drained or in-flight `MessageFailed` event built in the write pump's
deferred cleanup (manager.go:341-372): it carries the envelope's original
message, format and contents, and — as the source is written — the pump's
`writeError` in the `Error` field. -/
def drainEvent (we : Option String) (env : Envelope) : Event :=
  { type := EventType.MessageFailed
    message := some env.request.message
    format := some env.request.format
    contents := env.request.contents
    error := we }

/-- The write pump's deferred cleanup (manager.go:334-373): run
`closeOnce.Do(pumpClose)` (dispatching the disconnect event when this pump
wins the once), then dispatch a `MessageFailed` event for the in-flight
envelope if the loop exited mid-envelope, then drain every envelope still in
`d.messages` as a `MessageFailed` event.  All of these events carry the
pump's final `writeError`. -/
def writePumpCleanup (onceDone : Bool) (we : Option String)
    (inflight : Option Envelope) (queued : List Envelope) : List Event :=
  (if onceDone then [] else [pumpCloseEvent we]) ++
    (match inflight with
     | some env => [drainEvent we env]
     | none => []) ++
    queued.map (drainEvent we)

/-- The whole write pump: the main loop followed by the deferred cleanup.
`queued` is the content of `d.messages` at the time the drain runs.  Returns
every dispatched event in order together with the completion-channel
outcomes. -/
def writePump (encode : Message → Except String (List Nat))
    (write : List Nat → Option String) (wakeups : List WakeUp)
    (onceDone : Bool) (queued : List Envelope) :
    List Event × List (Option String) :=
  let r := writePumpLoop encode write wakeups
  (r.loopEvents ++ writePumpCleanup onceDone r.writeError r.inflight queued,
   r.completions)

/-! ## Connect and Route (`manager.Connect`, `manager.Route`) -/

/-- Modelled from the spec: the registry's `add` operation (the registry
implementation lives outside the vendored sources).  `add(device) -> error`
fails when the registry is at the configured device limit, or when the
identifier is already present; otherwise the device is inserted. -/
def registryAdd (limit : Nat) (reg : List String) (id : String) :
    Except String (List String) :=
  if limit ≤ reg.length then Except.error ErrorDeviceLimitReached
  else if id ∈ reg then Except.error ErrorDuplicateDevice
  else Except.ok (id :: reg)

/-- The external outcomes `Connect` depends on: the identity in the request
context (`GetID`), the websocket upgrade, and the pinger construction. -/
structure ConnectInput where
  contextID : Option String
  upgradeResult : Except String Unit
  pingerResult : Except String Unit
  deriving Repr

/-- The observable effects of one `Connect` call. -/
structure ConnectOutcome where
  result : Except String String
  registry : List String
  events : List Event
  httpStatus : Option Nat
  upgraded : Bool
  transportClosed : Bool
  pumpsStarted : Bool
  deriving Repr

/-- Model of `manager.Connect` (manager.go:140-194): missing identity writes an HTTP
500 and returns `ErrorMissingDeviceNameContext` before anything else; a
failed upgrade returns its error untouched; a failed pinger construction or
a failed registry `add` closes the transport and returns the error; on
success the device is registered, the connect event is dispatched and both
pumps are started.  (The convey-header translation at manager.go:154-158
only logs and is dropped.) -/
def Connect (limit : Nat) (reg : List String) (inp : ConnectInput) : ConnectOutcome :=
  match inp.contextID with
  | none =>
    { result := Except.error ErrorMissingDeviceNameContext
      registry := reg, events := [], httpStatus := some 500
      upgraded := false, transportClosed := false, pumpsStarted := false }
  | some id =>
    match inp.upgradeResult with
    | Except.error e =>
      { result := Except.error e
        registry := reg, events := [], httpStatus := none
        upgraded := false, transportClosed := false, pumpsStarted := false }
    | Except.ok _ =>
      match inp.pingerResult with
      | Except.error e =>
        { result := Except.error e
          registry := reg, events := [], httpStatus := none
          upgraded := true, transportClosed := true, pumpsStarted := false }
      | Except.ok _ =>
        match registryAdd limit reg id with
        | Except.error e =>
          { result := Except.error e
            registry := reg, events := [], httpStatus := none
            upgraded := true, transportClosed := true, pumpsStarted := false }
        | Except.ok reg2 =>
          { result := Except.ok id
            registry := reg2
            events := [{ type := EventType.Connect, message := none
                         format := none, contents := [], error := none }]
            httpStatus := none
            upgraded := true, transportClosed := false, pumpsStarted := true }

/-- Model of `manager.Route` (manager.go:445-453) with the registry threaded through
explicitly so that its preservation is an equation: resolve the destination
with `request.ID()`, look the device up, and either return the resolution
error, delegate to the device's `Send`, or fail with `ErrorDeviceNotFound`. -/
def Route {α : Type} (reg : List (String × (α → Except String Nat)))
    (request : α) (requestID : Except String String) :
    Except String Nat × List (String × (α → Except String Nat)) :=
  match requestID with
  | Except.error e => (Except.error e, reg)
  | Except.ok destination =>
    match registryGet reg destination with
    | some send => (send request, reg)
    | none => (Except.error ErrorDeviceNotFound, reg)

/-! ## Concrete instances for witnesses and counterexamples -/

/-- A transaction-part reply used in concrete runs. -/
def msgT : Message := ⟨4, "mac:112233445566", "dns:tr1d1um", "t1", [1, 2]⟩

/-- A fire-and-forget message used in concrete runs. -/
def msgF : Message := ⟨3, "s", "d", "", [7]⟩

/-- A second fire-and-forget message used in concrete runs. -/
def msgG : Message := ⟨3, "s", "d", "", [8]⟩

/-- A concrete Msgpack decoder: `[1]` decodes to the transaction part `msgT`,
`[2]` to the fire-and-forget `msgF`, everything else is malformed. -/
def decodeT (data : List Nat) : Except String Message :=
  if data = [1] then Except.ok msgT
  else if data = [2] then Except.ok msgF
  else Except.error "malformed"

/-- Concrete `wrp.Message.IsTransactionPart`: a message is a transaction part
iff it carries a transaction UUID. -/
def itpT (m : Message) : Bool := m.transactionUUID ≠ ""

/-- Concrete `wrp.Message.TransactionKey`: the transaction UUID. -/
def tkeyT (m : Message) : String := m.transactionUUID

/-- A concrete WRP encoder: encodes a message as its payload bytes. -/
def encodeT (m : Message) : Except String (List Nat) := Except.ok m.payload

/-- A transport write that always succeeds. -/
def writeOkT (_ : List Nat) : Option String := none

/-- A transport write that always fails with a broken pipe. -/
def writeFailT (_ : List Nat) : Option String := some "EPIPE"

/-- A queued envelope whose request is already in wire format with cached
bytes. -/
def envA : Envelope := ⟨⟨msgF, Format.Msgpack, [9, 9]⟩⟩

/-- A queued envelope whose request needs re-encoding. -/
def envB : Envelope := ⟨⟨msgG, Format.JSON, []⟩⟩

/-- A concrete device send operation used in `Route` runs. -/
def sendT : Unit → Except String Nat := fun _ => Except.ok 200

end Device

namespace Device

/-! ## Theorems -/

/-- C10: If the request context passed to `Connect` carries no resolved device
identity, `Connect` writes an HTTP 500 error response and returns
`ErrorMissingDeviceNameContext`, performs no websocket upgrade, leaves the
registry unchanged, dispatches no event, and starts no pump. -/
theorem Connect_missing_id (limit : Nat) (reg : List String) (inp : ConnectInput)
    (h : inp.contextID = none) :
    Connect limit reg inp =
      { result := Except.error ErrorMissingDeviceNameContext
        registry := reg
        events := []
        httpStatus := some 500
        upgraded := false
        transportClosed := false
        pumpsStarted := false } := by
  simp [Connect, h]

/-- Witness for `Connect_missing_id` at a concrete input. -/
theorem Connect_missing_id_witness :
    Connect 5 ["dev-0"] ⟨none, Except.ok (), Except.ok ()⟩ =
      { result := Except.error ErrorMissingDeviceNameContext
        registry := ["dev-0"]
        events := []
        httpStatus := some 500
        upgraded := false
        transportClosed := false
        pumpsStarted := false } :=
  Connect_missing_id 5 ["dev-0"] ⟨none, Except.ok (), Except.ok ()⟩ rfl

/-- C4: A failed transport upgrade surfaces its error to the caller and does
not mutate the registry; a failed registration (capacity exceeded or
duplicate identifier) closes the transport, surfaces the error, leaves the
registry unchanged, dispatches no connect event and starts no pump. -/
theorem Connect_failure_no_partial_state (limit : Nat) (reg : List String)
    (inp : ConnectInput) (id : String) (h : inp.contextID = some id) :
    (∀ e, inp.upgradeResult = Except.error e →
      Connect limit reg inp =
        { result := Except.error e
          registry := reg
          events := []
          httpStatus := none
          upgraded := false
          transportClosed := false
          pumpsStarted := false }) ∧
    (∀ e, inp.upgradeResult = Except.ok () → inp.pingerResult = Except.ok () →
      registryAdd limit reg id = Except.error e →
      Connect limit reg inp =
        { result := Except.error e
          registry := reg
          events := []
          httpStatus := none
          upgraded := true
          transportClosed := true
          pumpsStarted := false }) := by
  constructor
  · intro e he
    simp [Connect, h, he]
  · intro e hu hp ha
    simp [Connect, h, hu, hp, ha]

/-- Witness for `Connect_failure_no_partial_state`: registering into a
registry already at its limit fails, closes the transport and leaves no
partial state. -/
theorem Connect_failure_no_partial_state_witness :
    Connect 0 [] ⟨some "dev-1", Except.ok (), Except.ok ()⟩ =
      { result := Except.error ErrorDeviceLimitReached
        registry := []
        events := []
        httpStatus := none
        upgraded := true
        transportClosed := true
        pumpsStarted := false } :=
  (Connect_failure_no_partial_state 0 [] ⟨some "dev-1", Except.ok (), Except.ok ()⟩
    "dev-1" rfl).2 ErrorDeviceLimitReached rfl rfl rfl

/-- C5: `Route` returns the destination-resolution error when `request.ID()`
fails, returns `ErrorDeviceNotFound` when no device under the resolved
identifier is registered, and otherwise delegates to the resolved device's
send operation; in every case the registry is left unchanged. -/
theorem Route_spec {α : Type} (reg : List (String × (α → Except String Nat)))
    (request : α) (rid : Except String String) :
    (∀ e, rid = Except.error e → Route reg request rid = (Except.error e, reg)) ∧
    (∀ dest, rid = Except.ok dest → registryGet reg dest = none →
      Route reg request rid = (Except.error ErrorDeviceNotFound, reg)) ∧
    (∀ dest send, rid = Except.ok dest → registryGet reg dest = some send →
      Route reg request rid = (send request, reg)) := by
  refine ⟨?_, ?_, ?_⟩
  · intro e he
    simp [Route, he]
  · intro dest hd hg
    simp [Route, hd, hg]
  · intro dest send hd hg
    simp [Route, hd, hg]

/-- Witness for `Route_spec`: routing to the unknown identifier `dev-2`
returns `ErrorDeviceNotFound` and leaves the registry unchanged. -/
theorem Route_spec_witness :
    Route [("dev-1", sendT)] () (Except.ok "dev-2") =
      (Except.error ErrorDeviceNotFound, [("dev-1", sendT)]) :=
  (Route_spec [("dev-1", sendT)] () (Except.ok "dev-2")).2.1 "dev-2" rfl rfl

/-- Helper: the read pump reports a terminating read error only when the
inbound stream actually contains a transport read failure. -/
theorem readPump_terminated_mem (decode : List Nat → Except String Message)
    (itp : Message → Bool) (tkey : Message → String) :
    ∀ (reads : List ReadResult) (ts : List String) (e : String),
      (readPump decode itp tkey reads ts).terminated = some e →
      ReadResult.failure e ∈ reads := by
  intro reads
  induction reads with
  | nil => intro ts e h; simp [readPump] at h
  | cons head rest ih =>
    intro ts e h
    cases head with
    | failure e0 =>
      simp [readPump] at h
      simp [h]
    | frame mt data =>
      by_cases hmt : mt = BinaryMessage
      · subst hmt
        rw [readPump] at h
        simp only [if_pos rfl] at h
        cases hdec : decode data with
        | error _ =>
          rw [hdec] at h
          exact List.mem_cons_of_mem _ (ih ts e h)
        | ok msg =>
          rw [hdec] at h
          by_cases hitp : itp msg = true
          · simp only [hitp, if_pos] at h
            exact List.mem_cons_of_mem _ (ih _ e h)
          · simp only [hitp] at h
            simp at h
            exact List.mem_cons_of_mem _ (ih ts e h)
      · rw [readPump] at h
        simp only [if_neg hmt] at h
        exact List.mem_cons_of_mem _ (ih ts e h)

/-- C6: The read pump treats non-binary frames and undecodable binary frames
as non-fatal: it drops only that single frame and continues with the rest of
the stream unchanged (same events, same transactions, same termination
status, hence no disconnect); a transport read failure returns from the
pump at once; and the pump terminates only when the stream contains a
transport read failure. -/
theorem readPump_nonfatal_frames (decode : List Nat → Except String Message)
    (itp : Message → Bool) (tkey : Message → String)
    (mt : Nat) (data : List Nat) (rest : List ReadResult) (ts : List String) :
    (mt ≠ BinaryMessage →
      readPump decode itp tkey (ReadResult.frame mt data :: rest) ts =
        readPump decode itp tkey rest ts) ∧
    (∀ e, decode data = Except.error e →
      readPump decode itp tkey (ReadResult.frame BinaryMessage data :: rest) ts =
        readPump decode itp tkey rest ts) ∧
    (∀ e, readPump decode itp tkey (ReadResult.failure e :: rest) ts =
      ⟨[], ts, some e⟩) ∧
    (∀ (reads : List ReadResult) (ts' : List String) (e : String),
      (readPump decode itp tkey reads ts').terminated = some e →
      ReadResult.failure e ∈ reads) := by
  refine ⟨?_, ?_, ?_, readPump_terminated_mem decode itp tkey⟩
  · intro hmt
    rw [readPump]
    simp [hmt]
  · intro e hdec
    rw [readPump]
    simp [hdec]
  · intro e
    rw [readPump]

/-- Witness for `readPump_nonfatal_frames`: a text frame (type 1) and a
malformed binary frame are both skipped, after which a decodable frame is
still processed and dispatched. -/
theorem readPump_nonfatal_frames_witness :
    readPump decodeT itpT tkeyT
        [ReadResult.frame 1 [1], ReadResult.frame 2 [0], ReadResult.frame 2 [2]] [] =
      readPump decodeT itpT tkeyT [ReadResult.frame 2 [2]] [] ∧
    (readPump decodeT itpT tkeyT [ReadResult.frame 2 [2]] []).events.length = 1 := by
  constructor
  · exact ((readPump_nonfatal_frames decodeT itpT tkeyT 1 [1]
        [ReadResult.frame 2 [0], ReadResult.frame 2 [2]] []).1 (by decide)).trans
      ((readPump_nonfatal_frames decodeT itpT tkeyT 2 [0]
        [ReadResult.frame 2 [2]] []).2.1 "malformed" rfl)
  · decide

/-- C2 counterexample: a successfully decoded transaction part does not
additionally dispatch a `message-received` event — the single event
dispatched for it has type `transaction-complete` (the event variable's
`Type` field is overwritten in place at manager.go:297-301). -/
theorem readPump_transaction_part_no_messageReceived :
    decodeT [1] = Except.ok msgT ∧
    itpT msgT = true ∧
    (readPump decodeT itpT tkeyT [ReadResult.frame 2 [1]] ["t1"]).events.length = 1 ∧
    ((readPump decodeT itpT tkeyT [ReadResult.frame 2 [1]] ["t1"]).events.filter
      (fun ev => ev.type == EventType.MessageReceived)).length = 0 ∧
    ((readPump decodeT itpT tkeyT [ReadResult.frame 2 [1]] ["t1"]).events.filter
      (fun ev => ev.type == EventType.TransactionComplete)).length = 1 := by
  refine ⟨rfl, rfl, ?_, ?_, ?_⟩ <;> decide

/-- C2 (amended): for every binary frame the read pump successfully decodes,
exactly one event is dispatched for that frame: a `message-received` event
when the message is not a transaction part; when it is a transaction part,
a `transaction-complete` event when completing the matching open transaction
succeeds, or a `transaction-broken` event carrying the triggering error when
completion fails — with no separate `message-received` event. -/
theorem readPump_decoded_event (decode : List Nat → Except String Message)
    (itp : Message → Bool) (tkey : Message → String)
    (data : List Nat) (rest : List ReadResult) (ts : List String) (msg : Message)
    (hdec : decode data = Except.ok msg) :
    (itp msg = false →
      readPump decode itp tkey (ReadResult.frame BinaryMessage data :: rest) ts =
        ⟨{ type := EventType.MessageReceived, message := some msg
           format := some Format.Msgpack, contents := data, error := none } ::
          (readPump decode itp tkey rest ts).events,
         (readPump decode itp tkey rest ts).transactions,
         (readPump decode itp tkey rest ts).terminated⟩) ∧
    (∀ ts2, itp msg = true → transactionsComplete ts (tkey msg) = (ts2, none) →
      readPump decode itp tkey (ReadResult.frame BinaryMessage data :: rest) ts =
        ⟨{ type := EventType.TransactionComplete, message := some msg
           format := some Format.Msgpack, contents := data, error := none } ::
          (readPump decode itp tkey rest ts2).events,
         (readPump decode itp tkey rest ts2).transactions,
         (readPump decode itp tkey rest ts2).terminated⟩) ∧
    (∀ ts2 err, itp msg = true → transactionsComplete ts (tkey msg) = (ts2, some err) →
      readPump decode itp tkey (ReadResult.frame BinaryMessage data :: rest) ts =
        ⟨{ type := EventType.TransactionBroken, message := some msg
           format := some Format.Msgpack, contents := data, error := some err } ::
          (readPump decode itp tkey rest ts2).events,
         (readPump decode itp tkey rest ts2).transactions,
         (readPump decode itp tkey rest ts2).terminated⟩) := by
  refine ⟨?_, ?_, ?_⟩
  · intro hitp
    rw [readPump]
    simp [hdec, hitp]
  · intro ts2 hitp hc
    rw [readPump]
    simp [hdec, hitp, hc]
  · intro ts2 err hitp hc
    rw [readPump]
    simp [hdec, hitp, hc]

/-- Witness for `readPump_decoded_event`: completing the open transaction
`t1` dispatches exactly one event, of type `transaction-complete`. -/
theorem readPump_decoded_event_witness :
    readPump decodeT itpT tkeyT [ReadResult.frame BinaryMessage [1]] ["t1"] =
      ⟨[{ type := EventType.TransactionComplete, message := some msgT
          format := some Format.Msgpack, contents := [1], error := none }],
       [], none⟩ :=
  (readPump_decoded_event decodeT itpT tkeyT [1] [] ["t1"] msgT rfl).2.1 [] rfl
    (by decide)

/-- Helper: once the `sync.Once` flag is claimed, every further teardown
trigger leaves the hub state untouched. -/
theorem runTeardownTriggers_done (id : String) :
    ∀ (triggers : List (Option String)) (st : HubState), st.onceDone = true →
      runTeardownTriggers id triggers st = st := by
  intro triggers
  induction triggers with
  | nil => intro st _; rfl
  | cons e rest ih =>
    intro st h
    rw [runTeardownTriggers, onceGuard, if_pos h]
    exact ih st h

/-- Helper: a fresh teardown (unclaimed once flag) driven by any nonempty
trigger sequence performs the teardown effects of the first trigger and then
stops changing state. -/
theorem runTeardownTriggers_fresh (id : String) (e0 : Option String)
    (rest : List (Option String)) (reg : List String) :
    runTeardownTriggers id (e0 :: rest) ⟨false, reg, 0, []⟩ =
      ⟨true, reg.erase id, 1, [pumpCloseEvent e0]⟩ := by
  rw [runTeardownTriggers]
  rw [show onceGuard (pumpCloseRun id e0) ⟨false, reg, 0, []⟩ =
      (⟨true, reg.erase id, 1, [pumpCloseEvent e0]⟩ : HubState) from rfl]
  exact runTeardownTriggers_done id rest _ rfl

/-- C7 counterexample: a teardown caused by a write I/O failure (`EPIPE`)
dispatches exactly one disconnect event, and that event does not carry the
causing error — its `Error` field is nil (`Event{Type: Disconnect, Device: d}`
at manager.go:225-230 sets no error). -/
theorem pumpClose_disconnect_carries_no_error :
    (runTeardownTriggers "dev-1" [some "EPIPE"] ⟨false, ["dev-1"], 0, []⟩).events.length
        = 1 ∧
    ¬ (∃ ev ∈ (runTeardownTriggers "dev-1" [some "EPIPE"]
          ⟨false, ["dev-1"], 0, []⟩).events, ev.error = some "EPIPE") ∧
    (∀ ev ∈ (runTeardownTriggers "dev-1" [some "EPIPE"]
        ⟨false, ["dev-1"], 0, []⟩).events, ev.error = none) := by
  refine ⟨?_, ?_, ?_⟩ <;> decide

/-- C7 (amended): whenever a device is torn down — whatever mix of read-pump
failure, write-pump failure or explicit disconnect races to trigger it —
exactly one disconnect event is dispatched for that device, and that event
carries no attached error: the causing pump error is only logged, never
attached to the disconnect event. -/
theorem teardown_single_disconnect_no_error (id : String) (e0 : Option String)
    (rest : List (Option String)) (reg : List String) :
    (runTeardownTriggers id (e0 :: rest) ⟨false, reg, 0, []⟩).events =
      [pumpCloseEvent e0] ∧
    (pumpCloseEvent e0).type = EventType.Disconnect ∧
    (pumpCloseEvent e0).error = none := by
  refine ⟨?_, rfl, rfl⟩
  rw [runTeardownTriggers_fresh]

/-- C8: The teardown sequence — registry removal, transport close,
disconnect event — executes exactly once per device for every nonempty
sequence of teardown triggers (read-pump exit, write-pump exit, explicit
`Disconnect`); since `sync.Once` makes each `Do` atomic, every concurrent
combination of triggers is one such sequence. -/
theorem teardown_exactly_once (id : String) (triggers : List (Option String))
    (reg : List String) (h : triggers ≠ []) :
    (runTeardownTriggers id triggers ⟨false, reg, 0, []⟩).closeCount = 1 ∧
    ((runTeardownTriggers id triggers ⟨false, reg, 0, []⟩).events.filter
      (fun ev => ev.type == EventType.Disconnect)).length = 1 ∧
    (runTeardownTriggers id triggers ⟨false, reg, 0, []⟩).registry = reg.erase id := by
  match triggers, h with
  | e0 :: rest, _ =>
    rw [runTeardownTriggers_fresh]
    refine ⟨rfl, ?_, rfl⟩
    simp [pumpCloseEvent]

/-- Witness for `teardown_exactly_once`: simultaneous read-pump and
write-pump failure (two racing triggers) tears the device down once. -/
theorem teardown_exactly_once_witness :
    (runTeardownTriggers "dev-1" [some "read EOF", some "EPIPE"]
        ⟨false, ["dev-1", "dev-9"], 0, []⟩).closeCount = 1 ∧
    ((runTeardownTriggers "dev-1" [some "read EOF", some "EPIPE"]
        ⟨false, ["dev-1", "dev-9"], 0, []⟩).events.filter
      (fun ev => ev.type == EventType.Disconnect)).length = 1 ∧
    (runTeardownTriggers "dev-1" [some "read EOF", some "EPIPE"]
        ⟨false, ["dev-1", "dev-9"], 0, []⟩).registry = ["dev-9"] :=
  teardown_exactly_once "dev-1" [some "read EOF", some "EPIPE"]
    ["dev-1", "dev-9"] (by decide)

/-- C1 (code bug, evaluated at the failing input): the write pump exits on a
heartbeat-probe failure with two envelopes still queued.  The cleanup runs
the shared teardown first and then dispatches exactly one `message-failed`
event per queued envelope, each carrying that envelope's original message,
format and contents — but every drained event carries the pump's write error
(`Error: writeError` at manager.go:367) instead of the nil error announced
by the source's own comment (manager.go:354-356), so the drained failures
are not marked as connection-closed. -/
theorem writePump_drain_attaches_writeError :
    (writePump encodeT writeOkT [WakeUp.ping (some "ping failure")] false
        [envA, envB]).1 =
      [pumpCloseEvent (some "ping failure"),
       drainEvent (some "ping failure") envA,
       drainEvent (some "ping failure") envB] ∧
    ((writePump encodeT writeOkT [WakeUp.ping (some "ping failure")] false
        [envA, envB]).1.drop 1).all
      (fun ev => ev.type == EventType.MessageFailed) = true ∧
    ((writePump encodeT writeOkT [WakeUp.ping (some "ping failure")] false
        [envA, envB]).1.drop 1).all
      (fun ev => ev.error == some "ping failure") = true ∧
    ¬ ((writePump encodeT writeOkT [WakeUp.ping (some "ping failure")] false
        [envA, envB]).1.drop 1).all (fun ev => ev.error == none) = true := by
  refine ⟨?_, ?_, ?_, ?_⟩ <;> decide

/-- C9: for every dequeued envelope, the write pump uses the caller-supplied
cached bytes without re-encoding exactly when the request claims the wire
format (Msgpack) and the contents are non-empty, and re-encodes otherwise;
on write success it dispatches a `message-sent` event and merely closes the
completion channel; on encode or write failure it sends the error on the
envelope's completion channel, dispatches a `message-failed` event carrying
the error, and then stops consuming envelopes: the pump's remaining output
is exactly the teardown cleanup. -/
theorem writePump_envelope_spec (encode : Message → Except String (List Nat))
    (write : List Nat → Option String) (env : Envelope) (rest : List WakeUp)
    (queued : List Envelope) :
    (env.request.format = Format.Msgpack → 0 < env.request.contents.length →
      (processEnvelope encode write env).framePath = Except.ok env.request.contents) ∧
    (¬ (env.request.format = Format.Msgpack ∧ 0 < env.request.contents.length) →
      (processEnvelope encode write env).framePath = encode env.request.message) ∧
    ((processEnvelope encode write env).writeError = none →
      (processEnvelope encode write env).event =
        { type := EventType.MessageSent
          message := some env.request.message
          format := some env.request.format
          contents := env.request.contents
          error := none } ∧
      (processEnvelope encode write env).completion = none ∧
      writePumpLoop encode write (WakeUp.envelope env :: rest) =
        ⟨(processEnvelope encode write env).event ::
            (writePumpLoop encode write rest).loopEvents,
         none :: (writePumpLoop encode write rest).completions,
         (writePumpLoop encode write rest).writeError,
         (writePumpLoop encode write rest).inflight⟩) ∧
    (∀ e, (processEnvelope encode write env).writeError = some e →
      (processEnvelope encode write env).completion = some e ∧
      (processEnvelope encode write env).event =
        { type := EventType.MessageFailed
          message := some env.request.message
          format := some env.request.format
          contents := env.request.contents
          error := some e } ∧
      (writePump encode write (WakeUp.envelope env :: rest) false queued).1 =
        (processEnvelope encode write env).event ::
          writePumpCleanup false (some e) (some env) queued) := by
  have hc : (processEnvelope encode write env).completion =
      (processEnvelope encode write env).writeError := rfl
  have hev : (processEnvelope encode write env).event =
      { type := if (processEnvelope encode write env).writeError.isSome
                then EventType.MessageFailed else EventType.MessageSent
        message := some env.request.message
        format := some env.request.format
        contents := env.request.contents
        error := (processEnvelope encode write env).writeError } := rfl
  refine ⟨?_, ?_, ?_, ?_⟩
  · intro hf hl
    simp [processEnvelope, frameContentsFor, hf, hl]
  · intro hn
    simp [processEnvelope, frameContentsFor, if_neg hn]
  · intro hwe
    refine ⟨?_, ?_, ?_⟩
    · rw [hev, hwe]; rfl
    · rw [hc, hwe]
    · rw [writePumpLoop]
      simp only [hwe, hc]
  · intro e hwe
    have hloop : writePumpLoop encode write (WakeUp.envelope env :: rest) =
        ⟨[(processEnvelope encode write env).event], [some e], some e, some env⟩ := by
      rw [writePumpLoop]
      simp only [hwe, hc]
    refine ⟨hc.trans hwe, ?_, ?_⟩
    · rw [hev, hwe]; rfl
    · rw [writePump, hloop]; rfl

/-- Witness for `writePump_envelope_spec`: an envelope already carrying wire
bytes is written without re-encoding; when the transport write fails with a
broken pipe, the caller is notified on the completion channel, one
`message-failed` event carrying the error is dispatched, and only the
teardown cleanup follows. -/
theorem writePump_envelope_spec_witness :
    (processEnvelope encodeT writeFailT envA).framePath = Except.ok [9, 9] ∧
    (processEnvelope encodeT writeFailT envA).completion = some "EPIPE" ∧
    (processEnvelope encodeT writeFailT envA).event.type = EventType.MessageFailed ∧
    (writePump encodeT writeFailT [WakeUp.envelope envA] false [envB]).1 =
      (processEnvelope encodeT writeFailT envA).event ::
        writePumpCleanup false (some "EPIPE") (some envA) [envB] := by
  have h := writePump_envelope_spec encodeT writeFailT envA [] [envB]
  exact ⟨h.1 rfl (by decide), (h.2.2.2 "EPIPE" rfl).1,
         by rw [(h.2.2.2 "EPIPE" rfl).2.1], (h.2.2.2 "EPIPE" rfl).2.2⟩

end Device

namespace Xhttp

/-- Helper: the retry loop returns after one call when that call succeeds. -/
theorem retryGo_err_none (sr : GoError → Bool) (next : Nat → GoResult)
    (i f : Nat) (h : (next i).err = none) :
    retryGo sr next i (f + 1) = (1, next i) := by
  rw [retryGo.eq_def]
  simp [h]

/-- Helper: the retry loop returns after one call when that call fails with a
non-retryable error. -/
theorem retryGo_err_noretry (sr : GoError → Bool) (next : Nat → GoResult)
    (i f : Nat) (e : GoError) (h : (next i).err = some e) (hs : sr e = false) :
    retryGo sr next i (f + 1) = (1, next i) := by
  rw [retryGo.eq_def]
  simp [h, hs]

/-- Helper: with one iteration of budget left, the loop returns that call's
result even when its error is retryable (attempts exhausted). -/
theorem retryGo_last_retry (sr : GoError → Bool) (next : Nat → GoResult)
    (i : Nat) (e : GoError) (h : (next i).err = some e) (hs : sr e = true) :
    retryGo sr next i 1 = (1, next i) := by
  rw [retryGo]
  simp only [h, hs]
  rfl

/-- Helper: with at least two iterations of budget, a retryable failure
consumes one call and continues the loop. -/
theorem retryGo_step (sr : GoError → Bool) (next : Nat → GoResult)
    (i f : Nat) (e : GoError) (h : (next i).err = some e) (hs : sr e = true) :
    retryGo sr next i (f + 2) =
      ((retryGo sr next (i + 1) (f + 1)).1 + 1, (retryGo sr next (i + 1) (f + 1)).2) := by
  rw [retryGo]
  simp only [h, hs]
  rfl

/-- Helper: structural properties of the retry loop for a positive iteration
budget: between one and `fuel` calls are made, the result is the last call's
outcome, every call before the last failed with a retryable error, and an
early stop means the last call's error was nil or not retryable. -/
theorem retryGo_spec (sr : GoError → Bool) (next : Nat → GoResult) :
    ∀ (fuel : Nat), 1 ≤ fuel → ∀ (i : Nat),
      1 ≤ (retryGo sr next i fuel).1 ∧
      (retryGo sr next i fuel).1 ≤ fuel ∧
      (retryGo sr next i fuel).2 = next (i + (retryGo sr next i fuel).1 - 1) ∧
      (∀ k, k + 1 < (retryGo sr next i fuel).1 →
        ∃ e, (next (i + k)).err = some e ∧ sr e = true) ∧
      ((retryGo sr next i fuel).1 < fuel →
        (next (i + (retryGo sr next i fuel).1 - 1)).err = none ∨
        ∃ e, (next (i + (retryGo sr next i fuel).1 - 1)).err = some e ∧ sr e = false) := by
  intro fuel
  induction fuel with
  | zero => intro h; omega
  | succ f ih =>
    intro _ i
    cases f with
    | zero =>
      cases hne : (next i).err with
      | none =>
        rw [retryGo_err_none sr next i 0 hne]
        exact ⟨le_refl 1, le_refl 1, by simp, fun k hk => absurd hk (by omega),
               fun hlt => absurd hlt (by omega)⟩
      | some e =>
        cases hs : sr e with
        | true =>
          rw [retryGo_last_retry sr next i e hne hs]
          exact ⟨le_refl 1, le_refl 1, by simp, fun k hk => absurd hk (by omega),
                 fun hlt => absurd hlt (by omega)⟩
        | false =>
          rw [retryGo_err_noretry sr next i 0 e hne hs]
          exact ⟨le_refl 1, le_refl 1, by simp, fun k hk => absurd hk (by omega),
                 fun hlt => absurd hlt (by omega)⟩
    | succ f' =>
      cases hne : (next i).err with
      | none =>
        rw [retryGo_err_none sr next i (f' + 1) hne]
        exact ⟨le_refl 1, by omega, by simp, fun k hk => absurd hk (by omega),
               fun _ => Or.inl (by simp [hne])⟩
      | some e =>
        cases hs : sr e with
        | false =>
          rw [retryGo_err_noretry sr next i (f' + 1) e hne hs]
          exact ⟨le_refl 1, by omega, by simp, fun k hk => absurd hk (by omega),
                 fun _ => Or.inr ⟨e, by simp [hne], hs⟩⟩
        | true =>
          rw [retryGo_step sr next i f' e hne hs]
          obtain ⟨h1, h2, h3, h4, h5⟩ := ih (by omega) (i + 1)
          refine ⟨by omega, by omega, ?_, ?_, ?_⟩
          · rw [h3]
            congr 1
            omega
          · intro k hk
            cases k with
            | zero => exact ⟨e, by simpa using hne, hs⟩
            | succ k' =>
              obtain ⟨e', he', hs'⟩ := h4 k' (by omega)
              refine ⟨e', ?_, hs'⟩
              rw [show i + (k' + 1) = i + 1 + k' from by omega]
              exact he'
          · intro hlt
            rcases h5 (by omega) with hnone | ⟨e', he', hs'⟩
            · left
              rw [show i + ((retryGo sr next (i + 1) (f' + 1)).1 + 1) - 1 =
                  i + 1 + (retryGo sr next (i + 1) (f' + 1)).1 - 1 from by omega]
              exact hnone
            · right
              refine ⟨e', ?_, hs'⟩
              rw [show i + ((retryGo sr next (i + 1) (f' + 1)).1 + 1) - 1 =
                  i + 1 + (retryGo sr next (i + 1) (f' + 1)).1 - 1 from by omega]
              exact he'

/-- Helper: when every call fails with a retryable error, the loop uses its
whole budget and returns the last call's outcome. -/
theorem retryGo_all_retry (sr : GoError → Bool) (next : Nat → GoResult)
    (hall : ∀ j, ∃ e, (next j).err = some e ∧ sr e = true) :
    ∀ (fuel : Nat), 1 ≤ fuel → ∀ i,
      retryGo sr next i fuel = (fuel, next (i + fuel - 1)) := by
  intro fuel
  induction fuel with
  | zero => intro h; omega
  | succ f ih =>
    intro _ i
    obtain ⟨e, he, hs⟩ := hall i
    cases f with
    | zero =>
      rw [retryGo_last_retry sr next i e he hs]
      simp
    | succ f' =>
      rw [retryGo_step sr next i f' e he hs]
      simp only [ih (by omega) (i + 1)]
      rw [show i + 1 + (f' + 1) - 1 = i + (f' + 1 + 1) - 1 from by omega]

/-- C3: `RetryTransactor` with a nonpositive retry count returns the wrapped
function undecorated (exactly one attempt per call, returning its result);
with `retries ≥ 1` it makes between 1 and `retries + 1` attempts, stops at
the first attempt whose error is nil or not classified retryable, and
returns the last attempt's response and error; every earlier attempt failed
with a retryable error; the default classification accepts exactly the
errors that self-report as temporary; and with `Retries = 2` and an
always-retryable always-failing request exactly 3 attempts are made before
the final error is returned. -/
theorem RetryTransactor_spec (retries : Int) (shouldRetry : Option (GoError → Bool))
    (next : Nat → GoResult) :
    (retries < 1 → RetryTransactor retries shouldRetry next = (1, next 0)) ∧
    (1 ≤ retries →
      1 ≤ (RetryTransactor retries shouldRetry next).1 ∧
      (RetryTransactor retries shouldRetry next).1 ≤ retries.toNat + 1 ∧
      (RetryTransactor retries shouldRetry next).2 =
        next ((RetryTransactor retries shouldRetry next).1 - 1) ∧
      (∀ k, k + 1 < (RetryTransactor retries shouldRetry next).1 →
        ∃ e, (next k).err = some e ∧ (shouldRetry.getD DefaultShouldRetry) e = true) ∧
      ((RetryTransactor retries shouldRetry next).1 < retries.toNat + 1 →
        (next ((RetryTransactor retries shouldRetry next).1 - 1)).err = none ∨
        ∃ e, (next ((RetryTransactor retries shouldRetry next).1 - 1)).err = some e ∧
          (shouldRetry.getD DefaultShouldRetry) e = false)) ∧
    (retries = 2 →
      (∀ j, ∃ e, (next j).err = some e ∧ (shouldRetry.getD DefaultShouldRetry) e = true) →
      (RetryTransactor retries shouldRetry next).1 = 3 ∧
      (RetryTransactor retries shouldRetry next).2 = next 2) ∧
    (∀ e, DefaultShouldRetry e = true ↔ e.temporary = some true) := by
  refine ⟨?_, ?_, ?_, ?_⟩
  · intro h
    rw [RetryTransactor, if_pos h]
  · intro h
    have hfuel : 1 ≤ (retries + 1).toNat := by omega
    rw [RetryTransactor, if_neg (by omega)]
    obtain ⟨h1, h2, h3, h4, h5⟩ :=
      retryGo_spec (shouldRetry.getD DefaultShouldRetry) next ((retries + 1).toNat) hfuel 0
    simp only [Nat.zero_add] at h3 h4 h5
    refine ⟨h1, by omega, h3, h4, fun hlt => h5 (by omega)⟩
  · intro h2 hall
    subst h2
    rw [RetryTransactor, if_neg (by omega)]
    rw [retryGo_all_retry (shouldRetry.getD DefaultShouldRetry) next hall
      (((2 : Int) + 1).toNat) (by omega) 0]
    have ht : ((2 : Int) + 1).toNat = 3 := rfl
    rw [ht]
    exact ⟨rfl, rfl⟩
  · intro e
    cases he : e.temporary with
    | none => simp [DefaultShouldRetry, he]
    | some b => cases b <;> simp [DefaultShouldRetry, he]

/-- Witness for `RetryTransactor_spec`: `Retries = 2` with an always-failing,
always-temporary request makes exactly 3 attempts and returns the final
error. -/
theorem RetryTransactor_spec_witness :
    (RetryTransactor 2 none (fun _ => ⟨none, some ⟨"timeout", some true⟩⟩)).1 = 3 ∧
    (RetryTransactor 2 none (fun _ => ⟨none, some ⟨"timeout", some true⟩⟩)).2 =
      ⟨none, some ⟨"timeout", some true⟩⟩ :=
  (RetryTransactor_spec 2 none (fun _ => ⟨none, some ⟨"timeout", some true⟩⟩)).2.2.1 rfl
    (fun _ => ⟨⟨"timeout", some true⟩, rfl, rfl⟩)

end Xhttp
